import Mathlib

/-!
Verification of the incremental scraping/ingestion pipeline of the
`amazon_web_scraping` repository.

The Python sources are shallowly embedded:
* nullable Python floats become `Option ℚ` (missing values are `none`,
  mirroring Python `None` threaded through `row.get`),
* the SQLite tables become lists of row structures inside `DBState`,
  kept in insertion order (`SELECT ... fetchone()` without `ORDER BY`
  returns the first row in rowid order, i.e. `List.find?`),
* calendar days (`DATE(date_scraping)`) become a `Nat` parameter `today`,
* `hashlib.md5(...).hexdigest()` is an external library function; it is
  modelled as an explicit function parameter `md5 : String → String`,
  which keeps every theorem parametric in the concrete digest while
  preserving that the digest is a deterministic function of the title,
* external effects (Selenium page fetches, SQL connections, SMTP) are
  modelled as `Except String`-valued parameters of the job entry points.
-/

namespace AmazonScraping

/-- A raw scraped record as assembled by `extraire_info_produit` in
`scraper.py` (dict keys `Titre, Prix, Prix_Brut, Devise, Vote, Lien_Image`). -/
structure Info where
  titre : Option String
  prix : Option ℚ
  prixBrut : Option String
  devise : Option String
  vote : Option ℚ
  lienImage : Option String
deriving DecidableEq, Repr

/-- A row of the enriched DataFrame handed to `DatabaseManager.inserer_produits`
(columns `Titre, Prix, Vote, Lien_Image, Categorie_Prix, Qualite_Vote,
Rapport_Qualite_Prix`).  The scraper only emits rows with a non-empty title,
so `titre` is a plain `String` here (`str(row.get('Titre', ''))`). -/
structure Record where
  titre : String
  prix : Option ℚ
  vote : Option ℚ
  lienImage : Option String
  categoriePrix : Option String
  qualiteVote : Option String
  rapportQualitePrix : Option ℚ
deriving DecidableEq, Repr

/-- A row of the `produits` table (`database.py`, `_create_tables`).
`day` models `DATE(date_scraping)`. -/
structure ProduitRow where
  id : Nat
  titre : String
  prix : Option ℚ
  vote : Option ℚ
  lienImage : Option String
  categoriePrix : Option String
  qualiteVote : Option String
  rapportQualitePrix : Option ℚ
  day : Nat
  hashProduit : String
deriving DecidableEq, Repr

/-- A row of the append-only `prix_historique` table. -/
structure HistRow where
  hashProduit : String
  prix : Option ℚ
  vote : Option ℚ
deriving DecidableEq, Repr

/-- A row of the `alertes` table. -/
structure AlerteRow where
  typeAlerte : String
  message : String
  hashProduit : String
  ancienPrix : Option ℚ
  nouveauPrix : Option ℚ
deriving DecidableEq, Repr

/-- A row of the `scraping_logs` table. -/
structure RunLogRow where
  nbProduits : Nat
  nbNouveaux : Nat
  nbMisesAJour : Nat
  duree : ℚ
  statut : String
  messageErreur : Option String
deriving DecidableEq, Repr

/-- The relational store: the four tables plus the autoincrement counter of
`produits.id`. -/
structure DBState where
  produits : List ProduitRow
  prixHistorique : List HistRow
  alertes : List AlerteRow
  nextId : Nat
deriving DecidableEq, Repr

/-- The statistics dict returned by `inserer_produits`
(`{'nouveaux': N, 'mises_a_jour': M, 'total': T}`). -/
structure InsertStats where
  nouveaux : Nat
  misesAJour : Nat
  total : Nat
deriving DecidableEq, Repr

/-! ## Scraper-side definitions (`scraper.py`) -/

/-- `calculer_hash_produit` (scraper.py): `if not titre: return None`
else the md5 hexdigest of the title. -/
def calculer_hash_produit (md5 : String → String) (titre : String) :
    Option String :=
  if titre = "" then none else some (md5 titre)

/-- The identity the ingestion step derives for the daily lookup
(`database.py` line 184): `hashlib.md5(str(row.get('Titre', '')).encode()).hexdigest()`. -/
def hash_produit_ingestion (md5 : String → String) (r : Record) : String :=
  md5 r.titre

/-- The identity of a raw scraped record: `calculer_hash_produit` applied to
its title when the title is present (`if info['Titre']:` in `scraper_amazon`). -/
def infoHash (md5 : String → String) (i : Info) : Option String :=
  match i.titre with
  | none => none
  | some t => calculer_hash_produit md5 t

/-- The per-batch deduplication loop inside `scraper_amazon`
(scraper.py lines 447–467): records without a truthy title are skipped,
otherwise the md5 hash of the title is looked up in the `produits_vus`
set; repeats are dropped, first sightings are emitted together with
their hash (`info['Hash_Produit']`) and the hash is added to the set. -/
def dedupLoop (md5 : String → String) : List Info → List String → List (Info × String)
  | [], _ => []
  | i :: rest, vus =>
    match infoHash md5 i with
    | some hp =>
      if hp ∈ vus then dedupLoop md5 rest vus
      else (i, hp) :: dedupLoop md5 rest (hp :: vus)
    | none => dedupLoop md5 rest vus

/-- The deduplicated batch produced by one `scraper_amazon` invocation:
the dedup loop started with an empty `produits_vus` set. -/
def scraper_dedup (md5 : String → String) (l : List Info) : List (Info × String) :=
  dedupLoop md5 l []

/-- `categoriser_prix` (inside `appliquer_pipelines`): `pd.isna(prix)` →
`'Inconnu'`; currency-keyed step thresholds for XAF and USD; any other
currency value (including `None` and `'EUR'`) → `'Inconnu'`. -/
def categoriser_prix (r : Info) : String :=
  match r.prix with
  | none => "Inconnu"
  | some prix =>
    if r.devise = some "XAF" then
      if prix < 100000 then "Économique"
      else if prix < 300000 then "Moyen"
      else if prix < 600000 then "Cher"
      else "Premium"
    else if r.devise = some "USD" then
      if prix < 150 then "Économique"
      else if prix < 500 then "Moyen"
      else if prix < 1000 then "Cher"
      else "Premium"
    else "Inconnu"

/-- `categoriser_vote` (inside `appliquer_pipelines`). -/
def categoriser_vote (vote : Option ℚ) : String :=
  match vote with
  | none => "Non noté"
  | some v =>
    if v < 3.5 then "Faible"
    else if v < 4 then "Moyen"
    else if v < 4.5 then "Bon"
    else "Excellent"

/-- `df['Prix'].max()` with pandas NaN-skipping semantics: the maximum of
the present prices, `none` when every price is missing
(`df['Prix'].notna().sum() == 0`). -/
def prix_max_batch (l : List Info) : Option ℚ :=
  (l.filterMap Info.prix).foldl
    (fun acc p =>
      match acc with
      | none => some p
      | some m => some (max m p)) none

/-- The per-row lambda computing `Rapport_Qualite_Prix`
(`appliquer_pipelines`): `row['Vote'] / row['Prix_Norm']` when the vote and
`Prix_Norm = Prix / prix_max` are present and `Prix_Norm > 0`, else `None`. -/
def rapport_row (prixMax : ℚ) (r : Info) : Option ℚ :=
  match r.vote, r.prix with
  | some v, some p => if p / prixMax > 0 then some (v / (p / prixMax)) else none
  | _, _ => none

/-- The `Rapport_Qualite_Prix` column of `appliquer_pipelines`: all `None`
when no price is present or the batch maximum is not positive, otherwise
`rapport_row` applied with the batch maximum. -/
def rapport_qualite_prix_batch (l : List Info) : List (Option ℚ) :=
  match prix_max_batch l with
  | none => l.map (fun _ => none)
  | some m => if m > 0 then l.map (rapport_row m) else l.map (fun _ => none)

/-! ## Price-text parsing (`extraire_info_produit`, scraper.py lines 239–276)

The regexes `re.findall(r'[c₁c₂...]+', text)` are modelled by `runsOf`,
which collects the maximal runs of characters of the class; Python's `\d`
and `\s` are modelled by ASCII digits and by the common whitespace
characters.  `float(...)` on the digit/dot/whitespace strings arising here
is modelled by `pyFloat` (no sign or exponent can occur in those strings). -/

/-- Python substring test `sub in s` on character lists. -/
def listHasSub (sub : List Char) : List Char → Bool
  | [] => sub.isEmpty
  | c :: t => sub.isPrefixOf (c :: t) || listHasSub sub t

/-- Python substring test `sub in s` for strings. -/
def strContains (s sub : String) : Bool :=
  listHasSub sub.toList s.toList

/-- The whitespace characters matched by `\s` (ASCII fragment). -/
def isSpaceChar (c : Char) : Bool :=
  c = ' ' || c = '\t' || c = '\n' || c = '\r'

/-- Maximal runs of characters satisfying `p`, with the run being built in
`acc` (reversed); models `re.findall` of a character-class regex. -/
def runsOfAux (p : Char → Bool) : List Char → List Char → List (List Char)
  | [], acc => if acc.isEmpty then [] else [acc.reverse]
  | c :: t, acc =>
    if p c then runsOfAux p t (c :: acc)
    else if acc.isEmpty then runsOfAux p t []
    else acc.reverse :: runsOfAux p t []

/-- `re.findall(r'[class]+', text)`: the maximal runs of class characters. -/
def runsOf (p : Char → Bool) (l : List Char) : List (List Char) :=
  runsOfAux p l []

/-- The natural number denoted by a list of ASCII digits (empty → 0). -/
def natOfDigits (cs : List Char) : Nat :=
  cs.foldl (fun a c => a * 10 + (c.toNat - 48)) 0

/-- Python `float(...)` restricted to the strings reaching it in
`extraire_info_produit`: after stripping surrounding whitespace the text
must be non-empty, consist of digits and at most one dot, and contain at
least one digit; otherwise `float` raises `ValueError` (modelled `none`). -/
def pyFloat (cs : List Char) : Option ℚ :=
  let t := ((cs.dropWhile isSpaceChar).reverse.dropWhile isSpaceChar).reverse
  if ¬ t.isEmpty ∧ t.all (fun c => c.isDigit || c = '.')
      ∧ (t.filter (· = '.')).length ≤ 1 ∧ t.any Char.isDigit then
    let intPart := t.takeWhile (· ≠ '.')
    let fracPart := (t.dropWhile (· ≠ '.')).drop 1
    some ((natOfDigits intPart : ℚ) + (natOfDigits fracPart : ℚ) / (10 ^ fracPart.length))
  else none

/-- Remove the first `n` occurrences of `'.'`; models
`str.replace('.', '', n)` for `n ≥ 0` on these strings. -/
def removeFirstDots : Nat → List Char → List Char
  | _, [] => []
  | 0, l => l
  | n + 1, c :: t => if c = '.' then removeFirstDots n t else c :: removeFirstDots (n + 1) t

/-- The price branch of `extraire_info_produit` applied to one price text:
returns the `(Prix, Devise)` pair left in `info` after the branch runs,
a `ValueError` raised by `float` being caught by the enclosing `except`
(so fields assigned before the raise survive).  Currency detection is in
priority order XAF/CFA, then `$`/USD, then `€`/EUR, then a best-effort
digit parse with currency `UNKNOWN`. -/
def extraire_prix_devise (prixText : String) : Option ℚ × Option String :=
  let cs := prixText.toList
  if strContains prixText "XAF" || strContains prixText "CFA" then
    -- prix_text.replace(',', '').replace('.', ''); findall r'[\d\s]+';
    -- ''.join(nombres).replace(' ', ''); float(prix_clean)
    let t1 := cs.filter (fun c => ¬ (c = ',' ∨ c = '.'))
    let nombres := runsOf (fun c => c.isDigit || isSpaceChar c) t1
    if nombres.isEmpty then (none, some "XAF")
    else
      match pyFloat ((nombres.flatten).filter (· ≠ ' ')) with
      | some v => (some v, some "XAF")
      | none => (none, some "XAF")
  else if strContains prixText "$" || strContains prixText "USD" then
    -- findall r'[\d.]+'; float(nombres[0])
    match runsOf (fun c => c.isDigit || c = '.') cs with
    | [] => (none, some "USD")
    | n0 :: _ =>
      match pyFloat n0 with
      | some v => (some v, some "USD")
      | none => (none, some "USD")
  else if strContains prixText "€" || strContains prixText "EUR" then
    -- prix_text.replace('.', ''); findall r'[\d,]+'; nombres[0].replace(',', '.'); float
    match runsOf (fun c => c.isDigit || c = ',') (cs.filter (· ≠ '.')) with
    | [] => (none, some "EUR")
    | n0 :: _ =>
      match pyFloat (n0.map (fun c => if c = ',' then '.' else c)) with
      | some v => (some v, some "EUR")
      | none => (none, some "EUR")
  else
    -- findall r'[\d,.]+'; nombres[0].replace(',', '').replace('.', '', count('.')-1)
    -- (a negative replace count in Python replaces every occurrence)
    match runsOf (fun c => c.isDigit || c = ',' || c = '.') cs with
    | [] => (none, none)
    | n0 :: _ =>
      let noCommas := n0.filter (· ≠ ',')
      let dots := (cs.filter (· = '.')).length
      let prixClean :=
        if dots = 0 then noCommas.filter (· ≠ '.')
        else removeFirstDots (dots - 1) noCommas
      match pyFloat prixClean with
      | some v => (some v, some "UNKNOWN")
      | none => (none, none)

/-! ## Database-side definitions (`database.py`) -/

/-- `DatabaseManager._enregistrer_changement_prix`: when old and new price
are both Python-truthy (present and non-zero) the percentage variation is
computed and a `BAISSE_PRIX` alert row is produced when the variation is
strictly below −10.  The `f'...{abs(variation_pct):.1f}%'` one-decimal
rendering of the message is abstracted by `toString` of the exact rational. -/
def enregistrer_changement_prix (hashProduit : String)
    (ancienPrix nouveauPrix : Option ℚ) : List AlerteRow :=
  match ancienPrix, nouveauPrix with
  | some a, some n =>
    if a ≠ 0 ∧ n ≠ 0 then
      let variationPct := (n - a) / a * 100
      if variationPct < -10 then
        [{ typeAlerte := "BAISSE_PRIX"
           message := "Prix baissé de " ++ toString |variationPct| ++ "%"
           hashProduit := hashProduit
           ancienPrix := some a
           nouveauPrix := some n }]
      else []
    else []
  | _, _ => []

/-- The SQL predicate of the daily lookup in `inserer_produits`:
`hash_produit = ? AND DATE(date_scraping) = DATE('now')`. -/
def memeJour (hp : String) (today : Nat) (p : ProduitRow) : Bool :=
  p.hashProduit == hp && p.day == today

/-- The `UPDATE produits SET prix, vote, categorie_prix, qualite_vote,
rapport_qualite_prix WHERE id = ?` assignment applied to one row. -/
def mettre_a_jour_row (r : Record) (p : ProduitRow) : ProduitRow :=
  { p with prix := r.prix, vote := r.vote,
           categoriePrix := r.categoriePrix,
           qualiteVote := r.qualiteVote,
           rapportQualitePrix := r.rapportQualitePrix }

/-- The `INSERT INTO produits (...)` row for a fresh record, stamped with
today's date and the autoincrement id. -/
def nouvelle_ligne (hp : String) (today : Nat) (id : Nat) (r : Record) :
    ProduitRow :=
  { id := id, titre := r.titre, prix := r.prix, vote := r.vote,
    lienImage := r.lienImage, categoriePrix := r.categoriePrix,
    qualiteVote := r.qualiteVote, rapportQualitePrix := r.rapportQualitePrix,
    day := today, hashProduit := hp }

/-- Python `old != new` between a stored value read back from the store
and an incoming batch value.  A missing stored value is SQL NULL read
back as `None` (SQLite stores `NaN` as NULL); a missing incoming value is
pandas `NaN`, because `pd.DataFrame` promotes `None` to `NaN` in any
numeric column (the model fixes this numeric-dtype case, which any batch
containing one priced or rated record falls into).  In Python
`None != NaN`, `NaN != NaN`, `None != x` and `NaN != x` are all `True`,
so the two values compare equal exactly when both are present with the
same number. -/
def valeursDifferent (stored incoming : Option ℚ) : Prop :=
  match stored, incoming with
  | some a, some b => a ≠ b
  | _, _ => True

instance (stored incoming : Option ℚ) :
    Decidable (valeursDifferent stored incoming) :=
  match stored, incoming with
  | some a, some b => inferInstanceAs (Decidable (a ≠ b))
  | none, none => inferInstanceAs (Decidable True)
  | none, some _ => inferInstanceAs (Decidable True)
  | some _, none => inferInstanceAs (Decidable True)

/-- One iteration of the `for _, row in df.iterrows()` loop of
`DatabaseManager.inserer_produits` (database.py lines 181–256): look up
today's row for the record's hash; if found and the stored price or vote
differs under Python `!=` (`valeursDifferent`: a missing value on either
side always counts as different), update that row in place, run the
price-change handler and count an update; if not found, insert a fresh row
and count a new product; in every branch append one `prix_historique` row.
Returns the new state plus the `(isNew, isUpdated)` counter increments. -/
def inserer_row (md5 : String → String) (today : Nat) (s : DBState)
    (r : Record) : DBState × Bool × Bool :=
  let hp := hash_produit_ingestion md5 r
  let hist := s.prixHistorique ++ [{ hashProduit := hp, prix := r.prix, vote := r.vote }]
  match s.produits.find? (memeJour hp today) with
  | some existing =>
    if valeursDifferent existing.prix r.prix
        ∨ valeursDifferent existing.vote r.vote then
      ({ s with produits := s.produits.map (fun p =>
                  if p.id = existing.id then mettre_a_jour_row r p else p)
                alertes := s.alertes ++ enregistrer_changement_prix hp existing.prix r.prix
                prixHistorique := hist },
       false, true)
    else
      ({ s with prixHistorique := hist }, false, false)
  | none =>
    ({ s with produits := s.produits ++ [nouvelle_ligne hp today s.nextId r]
              nextId := s.nextId + 1
              prixHistorique := hist },
     true, false)

/-- The status dict a job returns: `{'status': 'SUCCESS', ...}` with the
product/new/updated counts and the duration, or `{'status': 'ERROR',
'error': msg}`.  (The `devises` histogram of the success dict is not
modelled.) -/
inductive JobResult where
  | success (nbProduits nouveaux misesAJour : Nat) (duree : ℚ)
  | error (msg : String)
deriving DecidableEq, Repr

/-- The `except` branch of `run_scraping_job`: try to write an ERROR run-log
row, swallowing any further store failure (`try: ... except: pass`).
Returns the run-log rows actually recorded. -/
def tenter_log_erreur (logScraping : RunLogRow → Except String Unit)
    (duree : ℚ) (e : String) : List RunLogRow :=
  let row : RunLogRow :=
    { nbProduits := 0, nbNouveaux := 0, nbMisesAJour := 0,
      duree := duree, statut := "ERROR", messageErreur := some e }
  match logScraping row with
  | .ok _ => [row]
  | .error _ => []

/-- `run_scraping_job` (scraper.py lines 589–660): scrape, apply the
pipelines, insert into the store, write a SUCCESS run-log row; any raise
falls to the `except` branch, which attempts an ERROR run-log row and
returns the error status.  `scrape` is the outcome of
`scraper_amazon` + `appliquer_pipelines`, `insert` the outcome of
`db.inserer_produits`, `logScraping` the outcome of each `db.log_scraping`
write.  Returns the status dict and the run-log rows recorded. -/
def run_scraping_job (scrape : Except String (List Record))
    (insert : List Record → Except String InsertStats)
    (logScraping : RunLogRow → Except String Unit)
    (duree : ℚ) : JobResult × List RunLogRow :=
  match scrape with
  | .error e => (.error e, tenter_log_erreur logScraping duree e)
  | .ok df =>
    match insert df with
    | .error e => (.error e, tenter_log_erreur logScraping duree e)
    | .ok stats =>
      let row : RunLogRow :=
        { nbProduits := df.length, nbNouveaux := stats.nouveaux,
          nbMisesAJour := stats.misesAJour, duree := duree,
          statut := "SUCCESS", messageErreur := none }
      match logScraping row with
      | .error e => (.error e, tenter_log_erreur logScraping duree e)
      | .ok _ => (.success df.length stats.nouveaux stats.misesAJour duree, [row])

/-- The status dict `run_alerte_job` returns. -/
inductive AlerteJobResult where
  | success
  | error (msg : String)
deriving DecidableEq, Repr

/-- `AlerteManager.verifier_et_alerter` (alertes.py lines 94–121): a single
`try` block runs `get_db()`, the recent-alerts read (plus the price-drop
digest email, which returns a `Bool` and never raises), the new-products
count and top-5 read, and the best-value read; any exception is caught and
logged.  Returns the logged error message, `none` when the pass completed. -/
def verifier_et_alerter (getDbRes : Except String Unit)
    (alertesRecentes : Except String (List AlerteRow))
    (nbNouveauxJour : Except String Nat)
    (topNouveaux : Except String (List ProduitRow))
    (bonnesAffaires : Except String (List ProduitRow)) : Option String :=
  let pass : Except String Unit := do
    getDbRes
    let _dfAlertes ← alertesRecentes
    let n ← nbNouveauxJour
    if n > 0 then
      let _top ← topNouveaux
      pure ()
    else
      pure ()
    let _deals ← bonnesAffaires
    pure ()
  match pass with
  | .ok _ => none
  | .error e => some e

/-- `run_alerte_job` (alertes.py lines 348–365): construct the alert
manager, run the evaluation pass, and return a status dict; only an
exception raised outside `verifier_et_alerter` (modelled by
`managerInit`) reaches the `except` branch. -/
def run_alerte_job (managerInit : Except String Unit)
    (getDbRes : Except String Unit)
    (alertesRecentes : Except String (List AlerteRow))
    (nbNouveauxJour : Except String Nat)
    (topNouveaux : Except String (List ProduitRow))
    (bonnesAffaires : Except String (List ProduitRow)) : AlerteJobResult :=
  match managerInit with
  | .error e => .error e
  | .ok _ =>
    let _log := verifier_et_alerter getDbRes alertesRecentes nbNouveauxJour
      topNouveaux bonnesAffaires
    .success

/-! ## Helper lemmas -/

/-- The dedup loop only emits pairs whose hash is fresh, and each emitted
record is the earliest record of the input carrying its hash. -/
theorem dedupLoop_mem {md5 : String → String} :
    ∀ {l : List Info} {vus : List String} {q : Info × String},
      q ∈ dedupLoop md5 l vus →
      q.2 ∉ vus ∧ infoHash md5 q.1 = some q.2 ∧
        ∃ l₁ l₂, l = l₁ ++ q.1 :: l₂ ∧ ∀ j ∈ l₁, infoHash md5 j ≠ some q.2 := by
  intro l
  induction l with
  | nil => intro vus q hq; simp [dedupLoop] at hq
  | cons i rest ih =>
    intro vus q hq
    rw [dedupLoop] at hq
    split at hq
    case _ hp hhash =>
      split at hq
      case isTrue hseen =>
        obtain ⟨hfresh, hqh, l₁, l₂, hsplit, hfirst⟩ := ih hq
        refine ⟨hfresh, hqh, i :: l₁, l₂, by rw [hsplit]; rfl, ?_⟩
        intro j hj
        rcases List.mem_cons.mp hj with rfl | hj'
        · rw [hhash]
          intro hcontra
          exact hfresh (Option.some.inj hcontra ▸ hseen)
        · exact hfirst j hj'
      case isFalse hseen =>
        rcases List.mem_cons.mp hq with rfl | hq'
        · exact ⟨hseen, hhash, [], rest, rfl, by simp⟩
        · obtain ⟨hfresh, hqh, l₁, l₂, hsplit, hfirst⟩ := ih hq'
          have hne : hp ≠ q.2 := fun hcontra => hfresh (hcontra ▸ List.mem_cons_self hp vus)
          refine ⟨fun hmem => hfresh (List.mem_cons_of_mem hp hmem), hqh,
            i :: l₁, l₂, by rw [hsplit]; rfl, ?_⟩
          intro j hj
          rcases List.mem_cons.mp hj with rfl | hj'
          · rw [hhash]
            intro hcontra
            exact hne (Option.some.inj hcontra)
          · exact hfirst j hj'
    case _ hhash =>
      obtain ⟨hfresh, hqh, l₁, l₂, hsplit, hfirst⟩ := ih hq
      refine ⟨hfresh, hqh, i :: l₁, l₂, by rw [hsplit]; rfl, ?_⟩
      intro j hj
      rcases List.mem_cons.mp hj with rfl | hj'
      · rw [hhash]; exact fun h => Option.noConfusion h
      · exact hfirst j hj'

/-- The identities emitted by the dedup loop are pairwise distinct. -/
theorem dedupLoop_snd_nodup (md5 : String → String) :
    ∀ (l : List Info) (vus : List String),
      ((dedupLoop md5 l vus).map Prod.snd).Nodup := by
  intro l
  induction l with
  | nil => intro vus; simp [dedupLoop]
  | cons i rest ih =>
    intro vus
    rw [dedupLoop]
    split
    case _ hp hhash =>
      split
      case isTrue hseen => exact ih vus
      case isFalse hseen =>
        refine List.nodup_cons.mpr ⟨?_, ih (hp :: vus)⟩
        intro hmem
        obtain ⟨q, hq, hq2⟩ := List.mem_map.mp hmem
        exact (dedupLoop_mem hq).1 (hq2 ▸ List.mem_cons_self hp vus)
    case _ hhash => exact ih vus

/-- The records emitted by the dedup loop form a sublist of the input:
first-seen order is preserved. -/
theorem dedupLoop_fst_sublist (md5 : String → String) :
    ∀ (l : List Info) (vus : List String),
      List.Sublist ((dedupLoop md5 l vus).map Prod.fst) l := by
  intro l
  induction l with
  | nil => intro vus; simp [dedupLoop]
  | cons i rest ih =>
    intro vus
    rw [dedupLoop]
    split
    case _ hp hhash =>
      split
      case isTrue hseen => exact List.Sublist.cons i (ih vus)
      case isFalse hseen => exact List.Sublist.cons₂ i (ih (hp :: vus))
    case _ hhash => exact List.Sublist.cons i (ih vus)

/-- Completeness of the dedup loop: the first record of the input carrying
a given fresh hash is kept. -/
theorem dedupLoop_complete {md5 : String → String} :
    ∀ (l₁ : List Info) {l₂ : List Info} {vus : List String} {i : Info} {hp : String},
      infoHash md5 i = some hp → hp ∉ vus →
      (∀ j ∈ l₁, infoHash md5 j ≠ some hp) →
      (i, hp) ∈ dedupLoop md5 (l₁ ++ i :: l₂) vus := by
  intro l₁
  induction l₁ with
  | nil =>
    intro l₂ vus i hp hhash hfresh _
    rw [List.nil_append, dedupLoop, hhash]
    simp only [if_neg hfresh]
    exact List.mem_cons_self _ _
  | cons j rest ih =>
    intro l₂ vus i hp hhash hfresh hfirst
    rw [List.cons_append, dedupLoop]
    split
    case _ hj hjhash =>
      split
      case isTrue hseen =>
        exact ih hhash hfresh (fun k hk => hfirst k (List.mem_cons_of_mem j hk))
      case isFalse hseen =>
        have hne : hp ≠ hj := by
          intro hcontra
          exact hfirst j (List.mem_cons_self j rest) (hcontra ▸ hjhash)
        refine List.mem_cons_of_mem _ (ih hhash ?_ (fun k hk => hfirst k (List.mem_cons_of_mem j hk)))
        intro hmem
        rcases List.mem_cons.mp hmem with h | h
        · exact hne h
        · exact hfresh h
    case _ hjhash =>
      exact ih hhash hfresh (fun k hk => hfirst k (List.mem_cons_of_mem j hk))

/-- Unfolding of the daily-lookup predicate. -/
theorem memeJour_eq_true {hp : String} {today : Nat} {p : ProduitRow} :
    memeJour hp today p = true ↔ p.hashProduit = hp ∧ p.day = today := by
  simp [memeJour]

/-- A price "change" from a value to itself never produces an alert: the
variation is 0 (or the truthiness guard fails). -/
theorem enregistrer_self (hp : String) (o : Option ℚ) :
    enregistrer_changement_prix hp o o = [] := by
  match o with
  | none => rfl
  | some a =>
    by_cases ha : a = 0
    · simp [enregistrer_changement_prix, ha]
    · simp [enregistrer_changement_prix, ha]

/-- An alert can only come out of the price-change handler when both
prices are present and genuinely different rationals. -/
theorem enregistrer_ne_nil {hp : String} {o n : Option ℚ}
    (h : enregistrer_changement_prix hp o n ≠ []) :
    ∃ a b, o = some a ∧ n = some b ∧ a ≠ b := by
  match o, n with
  | some a, some b =>
    refine ⟨a, b, rfl, rfl, ?_⟩
    intro hab
    rw [hab] at h
    exact h (enregistrer_self hp (some b))
  | none, _ => exact absurd rfl h
  | some _, none => exact absurd rfl h

/-- Every branch of `inserer_row` appends exactly the one observation row
to `prix_historique`. -/
theorem inserer_row_hist (md5 : String → String) (today : Nat) (s : DBState)
    (r : Record) :
    (inserer_row md5 today s r).1.prixHistorique =
      s.prixHistorique ++
        [{ hashProduit := hash_produit_ingestion md5 r, prix := r.prix, vote := r.vote }] := by
  rw [inserer_row]
  split
  · split <;> rfl
  · rfl

/-- **C2**: during price-change handling, whenever the old and the new
price are both present and non-zero, the percentage variation
(new − old)/old × 100 is computed and a BAISSE_PRIX alert row carrying
both prices is inserted if and only if this variation is strictly below
−10; a missing or zero old price — or new price — produces no alert and
no variation is ever computed from a zero or absent old price. -/
theorem price_drop_threshold (hp : String) (a b : ℚ) (ha : a ≠ 0) (hb : b ≠ 0) :
    (enregistrer_changement_prix hp (some a) (some b) ≠ []
        ↔ (b - a) / a * 100 < -10)
  ∧ ((b - a) / a * 100 < -10 →
      enregistrer_changement_prix hp (some a) (some b) =
        [{ typeAlerte := "BAISSE_PRIX",
           message := "Prix baissé de " ++ toString |(b - a) / a * 100| ++ "%",
           hashProduit := hp, ancienPrix := some a, nouveauPrix := some b }])
  ∧ (∀ n : Option ℚ, enregistrer_changement_prix hp none n = [])
  ∧ (∀ n : Option ℚ, enregistrer_changement_prix hp (some 0) n = [])
  ∧ (∀ o : Option ℚ, enregistrer_changement_prix hp o none = [])
  ∧ (∀ o : ℚ, enregistrer_changement_prix hp (some o) (some 0) = []) := by
  refine ⟨?_, ?_, ?_, ?_, ?_, ?_⟩
  · by_cases hlt : (b - a) / a * 100 < -10 <;>
      simp [enregistrer_changement_prix, ha, hb, hlt]
  · intro hlt
    simp [enregistrer_changement_prix, ha, hb, hlt]
  · intro n; rfl
  · intro n; cases n <;> simp [enregistrer_changement_prix]
  · intro o; cases o <;> simp [enregistrer_changement_prix]
  · intro o; simp [enregistrer_changement_prix]

/-- Witness for C2: the spec's concrete cases — old 1000, new 880 (−12%)
fires an alert; old 1000, new 905 (−9.5%) does not. -/
theorem price_drop_threshold_witness :
    enregistrer_changement_prix "h" (some 1000) (some 880) ≠ []
  ∧ enregistrer_changement_prix "h" (some 1000) (some 905) = [] := by
  constructor
  · exact (price_drop_threshold "h" 1000 880 (by norm_num) (by norm_num)).1.mpr
      (by norm_num)
  · have h2 := (price_drop_threshold "h" 1000 905 (by norm_num) (by norm_num)).1
    exact not_not.mp (fun hne => absurd (h2.mp hne) (by norm_num))

/-- **C9**: a BAISSE_PRIX alert row can only be inserted while processing a
record whose identity already has a snapshot row for the current calendar
day with a differing stored price or vote; since the comparison is
restricted to today's row, a price level from any earlier day never
produces an alert. -/
theorem alert_only_from_todays_row (md5 : String → String) (today : Nat)
    (s : DBState) (r : Record) :
    ((inserer_row md5 today s r).1.alertes ≠ s.alertes →
      ∃ ex : ProduitRow,
        s.produits.find? (memeJour (hash_produit_ingestion md5 r) today) = some ex
        ∧ ex.hashProduit = hash_produit_ingestion md5 r
        ∧ ex.day = today
        ∧ (ex.prix ≠ r.prix ∨ ex.vote ≠ r.vote)
        ∧ (inserer_row md5 today s r).1.alertes
            = s.alertes ++ enregistrer_changement_prix
                (hash_produit_ingestion md5 r) ex.prix r.prix)
  ∧ ((∀ p ∈ s.produits,
        p.hashProduit = hash_produit_ingestion md5 r → p.day ≠ today) →
      (inserer_row md5 today s r).1.alertes = s.alertes) := by
  constructor
  · intro hne
    rcases hfind : s.produits.find?
        (memeJour (hash_produit_ingestion md5 r) today) with _ | ex
    · exfalso
      apply hne
      simp [inserer_row, hfind]
    · by_cases hdiff : valeursDifferent ex.prix r.prix
          ∨ valeursDifferent ex.vote r.vote
      · have halert : (inserer_row md5 today s r).1.alertes
            = s.alertes ++ enregistrer_changement_prix
                (hash_produit_ingestion md5 r) ex.prix r.prix := by
          simp [inserer_row, hfind, hdiff]
        have hnil : enregistrer_changement_prix
            (hash_produit_ingestion md5 r) ex.prix r.prix ≠ [] := by
          intro h0
          apply hne
          rw [halert, h0, List.append_nil]
        obtain ⟨a', b', hoa, hnb, hab⟩ := enregistrer_ne_nil hnil
        have hmj := List.find?_some hfind
        rw [memeJour_eq_true] at hmj
        refine ⟨ex, rfl, hmj.1, hmj.2, Or.inl ?_, halert⟩
        rw [hoa, hnb]
        simp [hab]
      · exfalso
        apply hne
        simp [inserer_row, hfind, hdiff]
  · intro hnone
    have hfind : s.produits.find?
        (memeJour (hash_produit_ingestion md5 r) today) = none := by
      rw [List.find?_eq_none]
      intro p hmem hmj
      rw [memeJour_eq_true] at hmj
      exact hnone p hmem hmj.1 hmj.2
    simp [inserer_row, hfind]

/-- Witness for C9: on an empty store (no row of any day) ingesting a
record inserts no alert. -/
theorem alert_only_from_todays_row_witness :
    (inserer_row (fun t => t) 0 ⟨[], [], [], 0⟩
        ⟨"a", some 100, some 4, none, none, none, none⟩).1.alertes = [] :=
  (alert_only_from_todays_row (fun t => t) 0 ⟨[], [], [], 0⟩
    ⟨"a", some 100, some 4, none, none, none, none⟩).2 (by simp)

/-- **C3**: for every ordered input batch, the dedup pass of
`scraper_amazon` yields an output of size at most the input size, in which
no two kept records share an identity, each kept record is the first
record of the input carrying its identity (first-occurrence order being
preserved: the kept records form a sublist of the input), and the output
is deterministic given a fixed input order. -/
theorem dedup_invariant (md5 : String → String) (l : List Info) :
    (scraper_dedup md5 l).length ≤ l.length
  ∧ ((scraper_dedup md5 l).map Prod.snd).Nodup
  ∧ List.Sublist ((scraper_dedup md5 l).map Prod.fst) l
  ∧ (∀ q ∈ scraper_dedup md5 l,
      infoHash md5 q.1 = some q.2 ∧
        ∃ l₁ l₂, l = l₁ ++ q.1 :: l₂ ∧ ∀ j ∈ l₁, infoHash md5 j ≠ some q.2)
  ∧ (∀ l' : List Info, l = l' → scraper_dedup md5 l = scraper_dedup md5 l') := by
  refine ⟨?_, dedupLoop_snd_nodup md5 l [], dedupLoop_fst_sublist md5 l [],
    ?_, ?_⟩
  · have h := (dedupLoop_fst_sublist md5 l []).length_le
    simpa using h
  · intro q hq
    obtain ⟨_, hqh, l₁, l₂, hsplit, hfirst⟩ := dedupLoop_mem hq
    exact ⟨hqh, l₁, l₂, hsplit, hfirst⟩
  · intro l' hl
    rw [hl]

/-- A small concrete batch with one duplicated title. -/
def batchDemo : List Info :=
  [⟨some "a", some 100, none, some "XAF", some 4, none⟩,
   ⟨some "b", some 200, none, some "XAF", some 5, none⟩,
   ⟨some "a", some 150, none, some "XAF", none, none⟩]

/-- Witness for C3: on the demo batch the kept record with identity "a" is
the first occurrence of that identity, and the pass is deterministic. -/
theorem dedup_invariant_witness :
    (∃ l₁ l₂,
        batchDemo = l₁ ++
          (⟨some "a", some 100, none, some "XAF", some 4, none⟩ : Info) :: l₂
        ∧ ∀ j ∈ l₁, infoHash (fun t => t) j ≠ some "a")
  ∧ scraper_dedup (fun t => t) batchDemo
      = scraper_dedup (fun t => t) batchDemo := by
  constructor
  · exact ((dedup_invariant (fun t => t) batchDemo).2.2.2.1
      (⟨some "a", some 100, none, some "XAF", some 4, none⟩, "a")
      (by decide)).2
  · exact (dedup_invariant (fun t => t) batchDemo).2.2.2.2 batchDemo rfl

/-- **C4**: the product identity is a deterministic function of the
(trimmed) title alone: hashing a title twice yields the same identity, and
two raw records — or two ingested rows — with identical titles map to the
same identity regardless of every other field, both through the scraper's
`calculer_hash_produit` and through the identity derived in
`inserer_produits` for the daily lookup. -/
theorem identity_determinism (md5 : String → String) (t : String)
    (i₁ i₂ : Info) (hi : i₁.titre = i₂.titre)
    (r₁ r₂ : Record) (hr : r₁.titre = r₂.titre) :
    calculer_hash_produit md5 t = calculer_hash_produit md5 t
  ∧ infoHash md5 i₁ = infoHash md5 i₂
  ∧ hash_produit_ingestion md5 r₁ = hash_produit_ingestion md5 r₂ := by
  refine ⟨rfl, ?_, ?_⟩
  · simp only [infoHash, hi]
  · simp only [hash_produit_ingestion, hr]

/-- Witness for C4: two records sharing only the title "Laptop X" get the
same identity, in the scraper and in the ingestion step. -/
theorem identity_determinism_witness :
    infoHash (fun t => t)
        ⟨some "Laptop X", some 100, none, some "XAF", some 4, none⟩
      = infoHash (fun t => t)
        ⟨some "Laptop X", none, some "$9", some "USD", none, some "img"⟩
  ∧ hash_produit_ingestion (fun t => t)
        ⟨"Laptop X", some 100, some 4, none, none, none, none⟩
      = hash_produit_ingestion (fun t => t)
        ⟨"Laptop X", none, none, some "i", some "c", some "q", some 8⟩ :=
  ⟨(identity_determinism (fun t => t) "Laptop X"
      ⟨some "Laptop X", some 100, none, some "XAF", some 4, none⟩
      ⟨some "Laptop X", none, some "$9", some "USD", none, some "img"⟩ rfl
      ⟨"Laptop X", some 100, some 4, none, none, none, none⟩
      ⟨"Laptop X", none, none, some "i", some "c", some "q", some 8⟩ rfl).2.1,
   (identity_determinism (fun t => t) "Laptop X"
      ⟨some "Laptop X", some 100, none, some "XAF", some 4, none⟩
      ⟨some "Laptop X", none, some "$9", some "USD", none, some "img"⟩ rfl
      ⟨"Laptop X", some 100, some 4, none, none, none, none⟩
      ⟨"Laptop X", none, none, some "i", some "c", some "q", some 8⟩ rfl).2.2⟩

/-- **C6**: the price bucket is `Inconnu` (Unknown) when the price is
null; otherwise for currency XAF it is Économique below 100 000, Moyen
below 300 000, Cher below 600 000 and Premium from there on; USD has its
own threshold set (150/500/1000); and any currency outside the two
recognized sets — including a missing one — yields `Inconnu` regardless
of the price value. -/
theorem price_bucket_thresholds (r : Info) :
    (r.prix = none → categoriser_prix r = "Inconnu")
  ∧ (∀ p : ℚ, r.prix = some p → r.devise = some "XAF" →
      categoriser_prix r =
        (if p < 100000 then "Économique" else if p < 300000 then "Moyen"
         else if p < 600000 then "Cher" else "Premium"))
  ∧ (∀ p : ℚ, r.prix = some p → r.devise = some "USD" →
      categoriser_prix r =
        (if p < 150 then "Économique" else if p < 500 then "Moyen"
         else if p < 1000 then "Cher" else "Premium"))
  ∧ (∀ p : ℚ, r.prix = some p → r.devise ≠ some "XAF" →
      r.devise ≠ some "USD" → categoriser_prix r = "Inconnu") := by
  refine ⟨?_, ?_, ?_, ?_⟩
  · intro h
    simp [categoriser_prix, h]
  · intro p hp hd
    simp [categoriser_prix, hp, hd]
  · intro p hp hd
    simp [categoriser_prix, hp, hd]
  · intro p hp hd1 hd2
    simp [categoriser_prix, hp, hd1, hd2]

/-- Witness for C6: one value in each regime — 250 000 XAF is Moyen,
99 USD is Économique, a EUR price is Inconnu, a missing price is Inconnu. -/
theorem price_bucket_thresholds_witness :
    categoriser_prix ⟨some "a", some 250000, none, some "XAF", none, none⟩
        = "Moyen"
  ∧ categoriser_prix ⟨some "a", some 99, none, some "USD", none, none⟩
        = "Économique"
  ∧ categoriser_prix ⟨some "a", some 50, none, some "EUR", none, none⟩
        = "Inconnu"
  ∧ categoriser_prix ⟨some "a", none, none, some "XAF", none, none⟩
        = "Inconnu" := by
  refine ⟨?_, ?_, ?_, ?_⟩
  · rw [(price_bucket_thresholds
      ⟨some "a", some 250000, none, some "XAF", none, none⟩).2.1 250000 rfl rfl]
    norm_num
  · rw [(price_bucket_thresholds
      ⟨some "a", some 99, none, some "USD", none, none⟩).2.2.1 99 rfl rfl]
    norm_num
  · exact (price_bucket_thresholds
      ⟨some "a", some 50, none, some "EUR", none, none⟩).2.2.2 50 rfl
      (by simp) (by simp)
  · exact (price_bucket_thresholds
      ⟨some "a", none, none, some "XAF", none, none⟩).1 rfl

/-- **C5** (amended): the value ratio of a record equals
rating / (price / batchMax) whenever price, rating and the batch maximum
are present, the maximum is positive **and the normalized price
price/batchMax is itself positive** (the code's `Prix_Norm > 0` guard,
which a zero price fails); in every other case — a missing price, vote or
batch maximum, a non-positive maximum, or a non-positive normalized price
— the ratio is null. -/
theorem value_rapport (l : List Info) (i : Nat) (r : Info) (m p v : ℚ)
    (hr : l[i]? = some r) :
    (prix_max_batch l = some m → 0 < m → r.prix = some p → r.vote = some v →
        0 < p / m →
        (rapport_qualite_prix_batch l)[i]? = some (some (v / (p / m))))
  ∧ (prix_max_batch l = some m → 0 < m → r.prix = some p → r.vote = some v →
        ¬ 0 < p / m → (rapport_qualite_prix_batch l)[i]? = some none)
  ∧ (r.prix = none → (rapport_qualite_prix_batch l)[i]? = some none)
  ∧ (r.vote = none → (rapport_qualite_prix_batch l)[i]? = some none)
  ∧ (prix_max_batch l = none → (rapport_qualite_prix_batch l)[i]? = some none)
  ∧ (prix_max_batch l = some m → ¬ 0 < m →
        (rapport_qualite_prix_batch l)[i]? = some none) := by
  refine ⟨?_, ?_, ?_, ?_, ?_, ?_⟩
  · intro hmax hm hp hv hpos
    have hm' : m > 0 := hm
    simp only [rapport_qualite_prix_batch, hmax]
    rw [if_pos hm', List.getElem?_map, hr]
    simp [rapport_row, hp, hv, if_pos hpos]
  · intro hmax hm hp hv hpos
    have hm' : m > 0 := hm
    simp only [rapport_qualite_prix_batch, hmax]
    rw [if_pos hm', List.getElem?_map, hr]
    simp [rapport_row, hp, hv, if_neg hpos]
  · intro hp
    rcases hmax : prix_max_batch l with _ | m'
    · simp only [rapport_qualite_prix_batch, hmax]
      rw [List.getElem?_map, hr]
      rfl
    · simp only [rapport_qualite_prix_batch, hmax]
      by_cases hm' : m' > 0
      · rw [if_pos hm', List.getElem?_map, hr]
        rcases hvv : r.vote with _ | v' <;> simp [rapport_row, hp, hvv]
      · rw [if_neg hm', List.getElem?_map, hr]
        rfl
  · intro hv
    rcases hmax : prix_max_batch l with _ | m'
    · simp only [rapport_qualite_prix_batch, hmax]
      rw [List.getElem?_map, hr]
      rfl
    · simp only [rapport_qualite_prix_batch, hmax]
      by_cases hm' : m' > 0
      · rw [if_pos hm', List.getElem?_map, hr]
        simp [rapport_row, hv]
      · rw [if_neg hm', List.getElem?_map, hr]
        rfl
  · intro hmax
    simp only [rapport_qualite_prix_batch, hmax]
    rw [List.getElem?_map, hr]
    rfl
  · intro hmax hm
    simp only [rapport_qualite_prix_batch, hmax]
    rw [if_neg hm, List.getElem?_map, hr]
    rfl

/-- The spec's value-ratio example batch: prices [100, 200], ratings
[4.0, 5.0]. -/
def batchRapportDemo : List Info :=
  [⟨some "a", some 100, none, some "XAF", some 4, none⟩,
   ⟨some "b", some 200, none, some "XAF", some 5, none⟩]

/-- Witness for C5 (amended): on the spec's example batch the ratios are
8.0 and 5.0. -/
theorem value_rapport_witness :
    (rapport_qualite_prix_batch batchRapportDemo)[0]? = some (some 8)
  ∧ (rapport_qualite_prix_batch batchRapportDemo)[1]? = some (some 5) := by
  constructor
  · have h := (value_rapport batchRapportDemo 0
      ⟨some "a", some 100, none, some "XAF", some 4, none⟩ 200 100 4 rfl).1
      (by decide) (by norm_num) rfl rfl (by norm_num)
    rw [h]
    norm_num
  · have h := (value_rapport batchRapportDemo 1
      ⟨some "b", some 200, none, some "XAF", some 5, none⟩ 200 200 5 rfl).1
      (by decide) (by norm_num) rfl rfl (by norm_num)
    rw [h]
    norm_num

/-- The batch refuting C5 as stated: the first record's price is 0 —
price, vote and batch maximum are all present and the maximum is
positive, yet the code leaves the ratio null. -/
def batchRapportCex : List Info :=
  [⟨some "z", some 0, none, some "XAF", some 4, none⟩,
   ⟨some "b", some 200, none, some "XAF", some 5, none⟩]

/-- Counterexample to C5 as stated: every condition of the claim holds for
the first record of `batchRapportCex` (price present = 0, rating present,
batch max 200 > 0), yet the value ratio is null, not
rating/(price/batchMax). -/
theorem value_rapport_counterexample :
    prix_max_batch batchRapportCex = some 200
  ∧ (0 : ℚ) < 200
  ∧ batchRapportCex[0]?
      = some ⟨some "z", some 0, none, some "XAF", some 4, none⟩
  ∧ (rapport_qualite_prix_batch batchRapportCex)[0]? = some none
  ∧ (rapport_qualite_prix_batch batchRapportCex)[0]?
      ≠ some (some ((4 : ℚ) / (0 / 200))) := by
  have hmax : prix_max_batch batchRapportCex = some 200 := by
    show some (max (0 : ℚ) 200) = some 200
    rw [max_eq_right (by norm_num)]
  have hrow : (rapport_qualite_prix_batch batchRapportCex)[0]? = some none := by
    simp only [rapport_qualite_prix_batch, hmax]
    rw [if_pos (by norm_num : (200 : ℚ) > 0)]
    show some (rapport_row 200
      ⟨some "z", some 0, none, some "XAF", some 4, none⟩) = some none
    simp only [rapport_row]
    norm_num
  refine ⟨hmax, by norm_num, rfl, hrow, ?_⟩
  rw [hrow]
  simp

/-- Counterexample to C7 as stated: the price text "CFA" cannot be parsed
(the resulting price is null) yet the detected currency is XAF, not null —
the currency marker is recorded before the numeric parse fails. -/
theorem unparseable_price_counterexample :
    extraire_prix_devise "CFA" = (none, some "XAF")
  ∧ (extraire_prix_devise "CFA").1 = none
  ∧ (extraire_prix_devise "CFA").2 ≠ none := by
  refine ⟨by decide, by decide, by decide⟩

/-- **C7** (amended): a record whose price text cannot be parsed gets a
null price, and when the text carries no currency marker (as with "Price
Unavailable") the currency is null as well — a marker with unparseable
digits leaves the detected currency with a null price.  Any record with a
null price gets bucket `Inconnu` and a null value ratio, and as long as
its title is present it is not rejected: it is kept by the dedup pass (at
its first occurrence) and still ingested, appending its history row. -/
theorem unparseable_price_amended (t : String) (md5 : String → String)
    (today : Nat) (s : DBState) (rec : Record) (i : Info) (tt : String)
    (l₁ l₂ : List Info)
    (hm1 : strContains t "XAF" = false) (hm2 : strContains t "CFA" = false)
    (hm3 : strContains t "$" = false) (hm4 : strContains t "USD" = false)
    (hm5 : strContains t "€" = false) (hm6 : strContains t "EUR" = false)
    (hparse : (extraire_prix_devise t).1 = none)
    (hip : i.prix = none) (hrp : rec.prix = none)
    (hit : i.titre = some tt) (htt : tt ≠ "")
    (hfirst : ∀ j ∈ l₁, infoHash md5 j ≠ some (md5 tt)) :
    (extraire_prix_devise t).2 = none
  ∧ extraire_prix_devise "Price Unavailable" = (none, none)
  ∧ categoriser_prix i = "Inconnu"
  ∧ (∀ m : ℚ, rapport_row m i = none)
  ∧ (i, md5 tt) ∈ scraper_dedup md5 (l₁ ++ i :: l₂)
  ∧ (inserer_row md5 today s rec).1.prixHistorique
      = s.prixHistorique ++
        [{ hashProduit := hash_produit_ingestion md5 rec,
           prix := none, vote := rec.vote }] := by
  refine ⟨?_, by decide, ?_, ?_, ?_, ?_⟩
  · revert hparse
    rw [extraire_prix_devise]
    simp only [hm1, hm2, hm3, hm4, hm5, hm6, Bool.or_self, if_neg,
      Bool.false_eq_true, not_false_eq_true]
    split
    · intro _
      rfl
    · split
      · intro h
        exact absurd h (by simp)
      · intro _
        rfl
  · simp [categoriser_prix, hip]
  · intro m
    rcases hvv : i.vote with _ | v' <;> simp [rapport_row, hip, hvv]
  · have hih : infoHash md5 i = some (md5 tt) := by
      simp only [infoHash, hit, calculer_hash_produit, if_neg htt]
    exact dedupLoop_complete l₁ hih (by simp) hfirst
  · rw [inserer_row_hist, hrp]

/-- Witness for C7 (amended): the spec's "Price Unavailable" record —
parse yields (null, null), bucket is Inconnu, ratio is null, the titled
record is kept by the dedup pass, and ingesting it on an empty store still
appends its history row. -/
theorem unparseable_price_witness :
    (extraire_prix_devise "Price Unavailable").2 = none
  ∧ categoriser_prix
      ⟨some "Product A", none, some "Price Unavailable", none, none, none⟩
      = "Inconnu"
  ∧ (⟨some "Product A", none, some "Price Unavailable", none, none, none⟩,
      "Product A") ∈ scraper_dedup (fun x => x)
        [⟨some "Product A", none, some "Price Unavailable", none, none, none⟩]
  ∧ (inserer_row (fun x => x) 0 ⟨[], [], [], 0⟩
        ⟨"Product A", none, none, none, none, none, none⟩).1.prixHistorique
      = [{ hashProduit := "Product A", prix := none, vote := none }] := by
  have h := unparseable_price_amended "Price Unavailable" (fun x => x) 0
    ⟨[], [], [], 0⟩ ⟨"Product A", none, none, none, none, none, none⟩
    ⟨some "Product A", none, some "Price Unavailable", none, none, none⟩
    "Product A" [] []
    (by decide) (by decide) (by decide) (by decide) (by decide) (by decide)
    (by decide) rfl rfl rfl (by decide) (by simp)
  exact ⟨h.1, h.2.2.1, by simpa using h.2.2.2.2.1,
    by simpa using h.2.2.2.2.2⟩

/-- Counterexample to C8 as stated: when the store insert fails and the
error-logging store write fails as well, the scraping job still returns an
Error status, but no run-log row at all is recorded — the claim's
unconditional "records a run-log row with status Error" does not hold. -/
theorem job_runlog_counterexample :
    run_scraping_job (Except.ok []) (fun _ => Except.error "store failure")
        (fun _ => Except.error "store failure") 0
      = (JobResult.error "store failure", []) := rfl

/-- **C8** (amended): each public job entry point returns a status object
— Success with counts and duration or Error with a message — and never
propagates an exception; on a store failure the scraping job *attempts* to
record a run-log row with status Error, the row being recorded exactly
when that log write itself succeeds (a second store failure there is
swallowed). -/
theorem job_status (scrape : Except String (List Record))
    (insert : List Record → Except String InsertStats)
    (logScraping : RunLogRow → Except String Unit) (duree : ℚ)
    (managerInit getDbRes : Except String Unit)
    (alertesRecentes : Except String (List AlerteRow))
    (nbNouveauxJour : Except String Nat)
    (topNouveaux bonnesAffaires : Except String (List ProduitRow)) :
    ((∃ n a b, (run_scraping_job scrape insert logScraping duree).1
          = JobResult.success n a b duree)
      ∨ (∃ e, (run_scraping_job scrape insert logScraping duree).1
          = JobResult.error e))
  ∧ (run_alerte_job managerInit getDbRes alertesRecentes nbNouveauxJour
        topNouveaux bonnesAffaires = AlerteJobResult.success
      ∨ ∃ e, run_alerte_job managerInit getDbRes alertesRecentes
          nbNouveauxJour topNouveaux bonnesAffaires = AlerteJobResult.error e)
  ∧ (∀ df stats, scrape = .ok df → insert df = .ok stats →
      logScraping ⟨df.length, stats.nouveaux, stats.misesAJour, duree,
          "SUCCESS", none⟩ = .ok () →
      run_scraping_job scrape insert logScraping duree
        = (JobResult.success df.length stats.nouveaux stats.misesAJour duree,
           [⟨df.length, stats.nouveaux, stats.misesAJour, duree,
             "SUCCESS", none⟩]))
  ∧ (∀ df e, scrape = .ok df → insert df = .error e →
      (run_scraping_job scrape insert logScraping duree).1 = JobResult.error e
      ∧ (run_scraping_job scrape insert logScraping duree).2
          = tenter_log_erreur logScraping duree e)
  ∧ (∀ e, logScraping ⟨0, 0, 0, duree, "ERROR", some e⟩ = .ok () →
      tenter_log_erreur logScraping duree e
        = [⟨0, 0, 0, duree, "ERROR", some e⟩]) := by
  refine ⟨?_, ?_, ?_, ?_, ?_⟩
  · rcases scrape with e | df
    · exact Or.inr ⟨e, rfl⟩
    · rcases hins : insert df with e | stats
      · exact Or.inr ⟨e, by simp [run_scraping_job, hins]⟩
      · rcases hlog : logScraping ⟨df.length, stats.nouveaux,
            stats.misesAJour, duree, "SUCCESS", none⟩ with e | u
        · exact Or.inr ⟨e, by simp [run_scraping_job, hins, hlog]⟩
        · exact Or.inl ⟨df.length, stats.nouveaux, stats.misesAJour,
            by simp [run_scraping_job, hins, hlog]⟩
  · rcases managerInit with e | u
    · exact Or.inr ⟨e, rfl⟩
    · exact Or.inl rfl
  · intro df stats h1 h2 h3
    subst h1
    simp [run_scraping_job, h2, h3]
  · intro df e h1 h2
    subst h1
    constructor <;> simp [run_scraping_job, h2]
  · intro e h
    simp [tenter_log_erreur, h]

/-- Witness for C8 (amended): an all-successful run returns Success with
the counts and records the SUCCESS run-log row. -/
theorem job_status_witness :
    run_scraping_job (Except.ok []) (fun _ => Except.ok ⟨0, 0, 0⟩)
        (fun _ => Except.ok ()) 0
      = (JobResult.success 0 0 0 0,
         [{ nbProduits := 0, nbNouveaux := 0, nbMisesAJour := 0, duree := 0,
            statut := "SUCCESS", messageErreur := none }]) :=
  (job_status (Except.ok []) (fun _ => Except.ok ⟨0, 0, 0⟩)
      (fun _ => Except.ok ()) 0 (Except.ok ()) (Except.ok ())
      (Except.ok []) (Except.ok 0) (Except.ok []) (Except.ok [])).2.2.1
    [] ⟨0, 0, 0⟩ rfl rfl rfl

/-- **C10**: the alert job returns Success whenever the alert-manager
construction succeeds — even when every store read inside the evaluation
fails, because `verifier_et_alerter` catches the exception internally and
merely logs it; an Error status can only arise from a failure outside the
evaluation pass. -/
theorem alert_job_catches_store_failures
    (managerInit getDbRes : Except String Unit)
    (alertesRecentes : Except String (List AlerteRow))
    (nbNouveauxJour : Except String Nat)
    (topNouveaux bonnesAffaires : Except String (List ProduitRow))
    (e₀ e₁ : String) :
    (managerInit = .ok () →
      run_alerte_job managerInit getDbRes alertesRecentes nbNouveauxJour
        topNouveaux bonnesAffaires = AlerteJobResult.success)
  ∧ (∀ e, run_alerte_job managerInit getDbRes alertesRecentes nbNouveauxJour
        topNouveaux bonnesAffaires = AlerteJobResult.error e →
      managerInit = .error e)
  ∧ verifier_et_alerter (.error e₀) (.error e₀) (.error e₀) (.error e₀)
      (.error e₀) = some e₀
  ∧ verifier_et_alerter (.ok ()) (.error e₁) (.error e₁) (.error e₁)
      (.error e₁) = some e₁ := by
  refine ⟨?_, ?_, rfl, rfl⟩
  · intro h
    subst h
    rfl
  · intro e h
    rcases hm : managerInit with e' | u
    · simp only [run_alerte_job, hm] at h
      injection h with he
      rw [he]
    · simp only [run_alerte_job, hm] at h
      exact absurd h (by simp)

/-- Witness for C10: with the manager constructed and every store read
failing, the alert job still returns Success. -/
theorem alert_job_catches_store_failures_witness :
    run_alerte_job (Except.ok ()) (Except.error "db down")
        (Except.error "db down") (Except.error "db down")
        (Except.error "db down") (Except.error "db down")
      = AlerteJobResult.success :=
  (alert_job_catches_store_failures (Except.ok ()) (Except.error "db down")
      (Except.error "db down") (Except.error "db down")
      (Except.error "db down") (Except.error "db down") "x" "x").1 rfl

end AmazonScraping
